import Mathlib

/-!
Shallow embedding of `bot.py` (markdown-telegram-bot): a Telegram bot that
converts user markdown to Telegram MarkdownV2 via the external
`telegramify_markdown` library and replies, gated by a whitelist.

The external library calls (`telegramify`, `markdownify`) and the Telegram
transport are oracles: their outcomes are passed in as `Except`/function
parameters, and the handlers are pure functions from those outcomes to the
list of send actions they perform.
-/

namespace MarkdownBotSpec

/-- One entry of a chunk's `files` list: a dict with keys `type` (here
`ftype`), `file`, and `caption` (with `""` as the `.get` default). -/
structure FileInfo where
  ftype : String
  file : String
  caption : String
deriving Repr, DecidableEq

/-- One chunk produced by `telegramify_markdown.telegramify`: formatted
`text` plus an optional list of generated `files`. -/
structure Chunk where
  text : String
  files : List FileInfo
deriving Repr, DecidableEq

/-- An outbound send performed by a handler: `reply_text`, `reply_photo`
(with caption) or `reply_document` (with caption). -/
inductive Action where
  | replyText (s : String)
  | replyPhoto (file caption : String)
  | replyDocument (file caption : String)
deriving Repr, DecidableEq

/-- Python `str.strip()` on a character list: drop leading and trailing
whitespace (the literals in this program use only spaces and newlines,
all covered by `Char.isWhitespace`). -/
def stripList (l : List Char) : List Char :=
  ((l.dropWhile Char.isWhitespace).reverse.dropWhile Char.isWhitespace).reverse

/-- Python `str.strip()`. -/
def pyStrip (s : String) : String :=
  String.mk (stripList s.data)

/-- Python `str.replace(".", "\\.")` — the pattern is the single character
`.`, so this is a per-character substitution. -/
def escapeDots (e : String) : String :=
  String.mk ((e.data.map (fun c => if c = '.' then ['\\', '.'] else [c])).flatten)

/-- The chunk-indicator header `f"📄 *Part {i+1}/{len}*\n\n"` where `i` is
the zero-based chunk index and `n` the total number of chunks. -/
def partHeader (i n : Nat) : String :=
  "📄 *Part " ++ toString (i + 1) ++ "/" ++ toString n ++ "*\n\n"

/-- Forwarding of one generated file: photo if its `type` tag is
`"image"`, otherwise a generic document. -/
def fileAction (f : FileInfo) : Action :=
  if f.ftype = "image" then Action.replyPhoto f.file f.caption
  else Action.replyDocument f.file f.caption

/-- One iteration of the chunk loop in `handle_markdown`: if
`chunk.text.strip()` is non-empty, send the text (prefixed with a part
header when `n > 1` chunks exist); then forward each of the chunk's files.
`n` is `len(message_chunks)`, `i` the zero-based index. -/
def sendChunk (n i : Nat) (chunk : Chunk) : List Action :=
  (if pyStrip chunk.text ≠ "" then
    [Action.replyText (if n > 1 then partHeader i n ++ chunk.text else chunk.text)]
  else []) ++ chunk.files.map fileAction

/-- The `for i, chunk in enumerate(message_chunks)` loop, with running
index `i` and fixed total `n`. -/
def sendChunks (n : Nat) : Nat → List Chunk → List Action
  | _, [] => []
  | i, c :: cs => sendChunk n i c ++ sendChunks n (i + 1) cs

/-- The whole primary (telegramify) send path over the produced chunks. -/
def primarySend (chunks : List Chunk) : List Action :=
  sendChunks chunks.length 0 chunks

/-- Embeds the fallback slicing
`[formatted_text[i : i + 4000] for i in range(0, len(formatted_text), 4000)]`:
successive slices of 4000 characters of the character list. -/
def chunksOf4000 (l : List Char) : List (List Char) :=
  if h : l = [] then []
  else l.take 4000 :: chunksOf4000 (l.drop 4000)
termination_by l.length
decreasing_by
  have hl : 0 < l.length := List.length_pos.mpr h
  simp only [List.length_drop]
  omega

/-- The fallback slices as strings. -/
def fallbackChunks (s : String) : List String :=
  (chunksOf4000 s.data).map String.mk

/-- The fallback send path on the `markdownify` output: if it exceeds 4000
characters, send each 4000-character slice with a part header (header only
when more than one slice), else send it as a single message. -/
def fallbackSend (formatted : String) : List Action :=
  if formatted.length > 4000 then
    (fallbackChunks formatted).enum.map (fun p =>
      Action.replyText
        ((if (fallbackChunks formatted).length > 1 then
            partHeader p.1 (fallbackChunks formatted).length
          else "") ++ p.2))
  else
    [Action.replyText formatted]

/-- The terminal error reply: `str(e).replace(".", "\\.")` spliced into the
fixed apology template, where `e` is the primary exception. -/
def errorReply (e : String) : Action :=
  Action.replyText
    ("❌ Sorry, I couldn\x27t format your message\\. Error: `"
      ++ escapeDots e ++ "`")

/-- `handle_markdown`: whitelist gate, then primary telegramify path; on a
primary exception `e`, the markdownify fallback; on a fallback exception
too, the single escaped error reply built from `e`. The two library calls
are passed as their outcomes (`Except` = normal return or raised
exception text). -/
def handleMarkdown (whitelist : List Int) (userId : Int)
    (primary : Except String (List Chunk))
    (fallback : Except String String) : List Action :=
  if userId ∈ whitelist then
    match primary with
    | .ok chunks => primarySend chunks
    | .error e =>
      match fallback with
      | .ok formatted => fallbackSend formatted
      | .error _ => [errorReply e]
  else []

/-- The raw `welcome_message` triple-quoted literal of `start_command`
(leading newline and trailing indent included; the code strips it before
converting). -/
def welcomeRaw : String :=
  "\n🤖 **Markdown Formatter Bot**\n\nSend me any markdown text and I\x27ll format it for Telegram!\n\nSupported features:\n• Headings (# ## ### etc.)\n• **Bold** and *italic* text\n• Links [text](url)\n• Code blocks and `inline code`\n• Lists and tables\n• Block quotes\n• Strikethrough ~~text~~\n• Spoilers ||text||\n• And much more!\n\nJust send me your markdown text and I\x27ll convert it to proper Telegram format.\n        "

/-- The raw `help_text` literal of `help_command` (sent as-is, already
hand-escaped for MarkdownV2). -/
def helpText : String :=
  "\n📖 **How to use this bot:**\n\n1\\. Send me any markdown text\n2\\. I\x27ll convert it to Telegram\x27s MarkdownV2 format\n3\\. The formatted message will be sent back to you\n\n**Example:**\n```\n# My Title\nThis is **bold** and this is *italic*\n- Item 1\n- Item 2\n```\n\n**Supported markdown:**\n• Headers \\(\\# \\#\\# \\#\\#\\#\\)\n• **Bold** and *italic*\n• Links \\[text\\]\\(url\\)\n• Code blocks and \\`inline code\\`\n• Lists \\(ordered and unordered\\)\n• Tables\n• Block quotes \\(\\>\\)\n• Strikethrough \\~\\~text\\~\\~\n• Spoilers \\|\\|text\\|\\|\n• LaTeX math expressions\n        "

/-- `start_command`: whitelist gate, then
`markdownify(welcome_message.strip())` and one `reply_text`. The library
call is an oracle function `md`; an exception it raises propagates out of
the handler (no try/except here), hence the `Except` result. -/
def startCommand (whitelist : List Int) (userId : Int)
    (md : String → Except String String) : Except String (List Action) :=
  if userId ∈ whitelist then
    match md (pyStrip welcomeRaw) with
    | .ok formatted => .ok [Action.replyText formatted]
    | .error e => .error e
  else .ok []

/-- `help_command`: whitelist gate, then one `reply_text` of the fixed
`help_text` literal (no conversion call). -/
def helpCommand (whitelist : List Int) (userId : Int) : List Action :=
  if userId ∈ whitelist then [Action.replyText helpText] else []

/-- The text-message replies among a handler's sends (the `reply_text`
calls, in order). -/
def textReplies (as : List Action) : List String :=
  as.filterMap (fun a =>
    match a with
    | .replyText s => some s
    | _ => none)

/-- The photo/document sends among a handler's actions, in order. -/
def fileSends (as : List Action) : List Action :=
  as.filter (fun a =>
    match a with
    | .replyText _ => false
    | _ => true)

/-! ### Configuration loading and `main` -/

/-- Python `s.split(",")` on a character list: `"".split(",") == [""]`,
and every comma starts a new (possibly empty) piece. -/
def splitComma : List Char → List (List Char)
  | [] => [[]]
  | c :: cs =>
    match splitComma cs with
    | [] => [[]]
    | p :: ps => if c = ',' then [] :: p :: ps else (c :: p) :: ps

/-- Digits-only parse of a character list (none on empty or on any
non-digit character). -/
def digitsToNat : List Char → Option Nat
  | [] => none
  | cs =>
    cs.foldl
      (fun acc c =>
        acc.bind (fun n => if c.isDigit then some (10 * n + (c.toNat - 48)) else none))
      (some 0)

/-- Python `int(s)` for a decimal string: strip surrounding whitespace,
optional sign, then at least one ASCII digit; anything else raises
`ValueError` (underscore grouping and non-ASCII digits are not modelled —
no claim depends on them). The error text is CPython's message. -/
def pyInt (s : String) : Except String Int :=
  let t := stripList s.data
  let signed : Int × List Char :=
    match t with
    | '+' :: rest => (1, rest)
    | '-' :: rest => (-1, rest)
    | cs => (1, cs)
  match digitsToNat signed.2 with
  | some n => .ok (signed.1 * (n : Int))
  | none => .error ("invalid literal for int() with base 10: \x27" ++ s ++ "\x27")

/-- Python truthiness of `os.getenv(...)`: `None` and `""` are falsy. -/
def pyStrTruthy : Option String → Bool
  | none => false
  | some s => s ≠ ""

/-- The module-level `WHITELIST` assignment:
`list(map(int, os.getenv("WHITELIST", "").split(","))) if os.getenv("WHITELIST") else []`.
An invalid token makes `int` raise, and the exception is uncaught at
module load. -/
def loadWhitelist (wlEnv : Option String) : Except String (List Int) :=
  if pyStrTruthy wlEnv then
    ((splitComma (wlEnv.getD "").data).map String.mk).mapM pyInt
  else .ok []

/-- The outcome of `main`: either it printed remediation messages and
returned (no bot constructed, no polling), or it constructed
`MarkdownBot(BOT_TOKEN, WHITELIST)` and entered `run_polling`. -/
inductive MainResult where
  | configError (msgs : List String)
  | runBot (token : String) (whitelist : List Int)
deriving Repr, DecidableEq

/-- The three `print` lines of the missing-`BOT_TOKEN` branch of `main`. -/
def botTokenMsgs : List String :=
  ["❌ Please set your BOT_TOKEN in the .env file!",
   "Get your bot token from @BotFather on Telegram",
   "Create a .env file with: BOT_TOKEN=your_token_here"]

/-- The three `print` lines of the empty-`WHITELIST` branch of `main`. -/
def whitelistMsgs : List String :=
  ["❌ Please add user IDs to the WHITELIST in the .env file!",
   "You can get your user ID by messaging @userinfobot on Telegram",
   "Add to .env file: WHITELIST=123456789,987654321"]

/-- `main`: validate the loaded configuration (`if not BOT_TOKEN`, then
`if not WHITELIST`), printing remediation and returning on failure,
otherwise constructing and running the bot. -/
def main (botToken : Option String) (whitelist : List Int) : MainResult :=
  if pyStrTruthy botToken = false then .configError botTokenMsgs
  else if whitelist = [] then .configError whitelistMsgs
  else .runBot (botToken.getD "") whitelist

/-- The process from interpreter start: the module-level configuration
load runs first (an exception there is uncaught and kills the process
before `main` is entered), then `main`. -/
def runProcess (botTokenEnv wlEnv : Option String) : Except String MainResult :=
  match loadWhitelist wlEnv with
  | .error e => .error e
  | .ok wl => .ok (main botTokenEnv wl)

/-! ### Bot state and framework dispatch -/

/-- The fields `MarkdownBot.__init__` stores: the token and the
whitelist. -/
structure BotState where
  token : String
  whitelist : List Int

/-- One inbound update together with the outcomes of the external
library calls the corresponding handler would make. -/
inductive Event where
  | startCmd (uid : Int) (md : String → Except String String)
  | helpCmd (uid : Int)
  | textMsg (uid : Int) (primary : Except String (List Chunk))
      (fallback : Except String String)

/-- Dispatching one update to its handler: the state after, and either
the handler's sends or the exception text it let escape. No handler
assigns to `self.whitelist` (or `self.token`), so the state is returned
unchanged. -/
def stepBot (s : BotState) (ev : Event) : BotState × Except String (List Action) :=
  match ev with
  | .startCmd uid md => (s, startCommand s.whitelist uid md)
  | .helpCmd uid => (s, .ok (helpCommand s.whitelist uid))
  | .textMsg uid prim fb => (s, .ok (handleMarkdown s.whitelist uid prim fb))

/-- The bot state after a whole sequence of updates. -/
def runBotEvents (s : BotState) (evs : List Event) : BotState :=
  evs.foldl (fun st ev => (stepBot st ev).1) s

/-- The log line of `MarkdownBot.error_handler`:
`f"Update {update} caused error {context.error}"`. -/
def errorHandlerLog (upd err : String) : String :=
  "Update " ++ upd ++ " caused error " ++ err

/-- Modelled from the spec: the polling runner registers `error_handler`
via `add_error_handler`, and the underlying bot framework
(python-telegram-bot, not part of this repository) catches any exception
escaping a handler and routes it to that error handler, which logs it;
the polling loop keeps running either way. Result: the sends performed
plus the error-log lines produced. -/
def dispatch (upd : String) (r : Except String (List Action)) :
    List Action × List String :=
  match r with
  | .ok acts => (acts, [])
  | .error e => ([], [errorHandlerLog upd e])

/-- Concrete test vector: three telegramify chunks whose middle chunk has
whitespace-only text but carries a generated (non-image) file. -/
def demoChunks : List Chunk :=
  [Chunk.mk "a" [], Chunk.mk " " [FileInfo.mk "pdf" "f" "cap"], Chunk.mk "b" []]

/-! ### Supporting lemmas -/

theorem textReplies_append (as bs : List Action) :
    textReplies (as ++ bs) = textReplies as ++ textReplies bs := by
  unfold textReplies
  exact List.filterMap_append _ _ _

theorem textReplies_fileActions (fs : List FileInfo) :
    textReplies (fs.map fileAction) = [] := by
  unfold textReplies
  rw [List.filterMap_map, List.filterMap_eq_nil_iff]
  intro f _
  by_cases hf : f.ftype = "image" <;> simp [Function.comp, fileAction, hf]

theorem fileSends_append (as bs : List Action) :
    fileSends (as ++ bs) = fileSends as ++ fileSends bs := by
  unfold fileSends
  exact List.filter_append _ _

theorem fileSends_fileActions (fs : List FileInfo) :
    fileSends (fs.map fileAction) = fs.map fileAction := by
  unfold fileSends
  rw [List.filter_eq_self]
  intro a ha
  obtain ⟨f, _, rfl⟩ := List.mem_map.mp ha
  by_cases hf : f.ftype = "image" <;> simp [fileAction, hf]

theorem textReplies_sendChunk (n i : Nat) (c : Chunk) :
    textReplies (sendChunk n i c) =
      if pyStrip c.text ≠ "" then
        [if n > 1 then partHeader i n ++ c.text else c.text]
      else [] := by
  unfold sendChunk
  rw [textReplies_append, textReplies_fileActions]
  split <;> simp [textReplies]

theorem fileSends_sendChunk (n i : Nat) (c : Chunk) :
    fileSends (sendChunk n i c) = c.files.map fileAction := by
  unfold sendChunk
  rw [fileSends_append, fileSends_fileActions]
  split <;> simp [fileSends]

theorem textReplies_sendChunks (n i : Nat) (cs : List Chunk)
    (hnb : ∀ c ∈ cs, pyStrip c.text ≠ "") :
    textReplies (sendChunks n i cs) =
      (List.enumFrom i cs).map
        (fun p => if n > 1 then partHeader p.1 n ++ p.2.text else p.2.text) := by
  induction cs generalizing i with
  | nil => rfl
  | cons c cs ih =>
    have hc := hnb c (by simp)
    rw [sendChunks, textReplies_append, textReplies_sendChunk, if_pos hc,
      ih (i + 1) (fun d hd => hnb d (by simp [hd]))]
    simp [List.enumFrom]

theorem textReplies_sendChunks_length (n i : Nat) (cs : List Chunk) :
    (textReplies (sendChunks n i cs)).length =
      (cs.filter (fun c => pyStrip c.text != "")).length := by
  induction cs generalizing i with
  | nil => rfl
  | cons c cs ih =>
    rw [sendChunks, textReplies_append, textReplies_sendChunk, List.length_append,
      ih (i + 1)]
    by_cases hc : pyStrip c.text = "" <;> simp [hc] <;> omega

theorem fileSends_sendChunks (n i : Nat) (cs : List Chunk) :
    fileSends (sendChunks n i cs) =
      (cs.map (fun c => c.files.map fileAction)).flatten := by
  induction cs generalizing i with
  | nil => rfl
  | cons c cs ih =>
    rw [sendChunks, fileSends_append, fileSends_sendChunk, ih (i + 1)]
    simp

theorem chunksOf4000_nil : chunksOf4000 [] = [] := by
  rw [chunksOf4000]
  simp

theorem chunksOf4000_cons (l : List Char) (h : l ≠ []) :
    chunksOf4000 l = l.take 4000 :: chunksOf4000 (l.drop 4000) := by
  rw [chunksOf4000]
  simp [h]

theorem chunksOf4000_flatten (l : List Char) : (chunksOf4000 l).flatten = l := by
  generalize hn : l.length = n
  induction n using Nat.strong_induction_on generalizing l with
  | _ n ih =>
    by_cases h : l = []
    · subst h
      simp [chunksOf4000_nil]
    · have hlt : (l.drop 4000).length < n := by
        have := List.length_pos.mpr h
        subst hn
        simp only [List.length_drop]
        omega
      rw [chunksOf4000_cons l h]
      simp only [List.flatten_cons]
      rw [ih _ hlt _ rfl]
      exact List.take_append_drop 4000 l

theorem chunksOf4000_mem (l p : List Char) (hp : p ∈ chunksOf4000 l) :
    p.length ≤ 4000 ∧ p ≠ [] := by
  generalize hn : l.length = n
  induction n using Nat.strong_induction_on generalizing l p with
  | _ n ih =>
    by_cases h : l = []
    · subst h
      rw [chunksOf4000_nil] at hp
      exact absurd hp (List.not_mem_nil p)
    · have hlt : (l.drop 4000).length < n := by
        have := List.length_pos.mpr h
        subst hn
        simp only [List.length_drop]
        omega
      rw [chunksOf4000_cons l h] at hp
      rcases List.mem_cons.mp hp with rfl | hp
      · refine ⟨by simp, ?_⟩
        have := List.length_pos.mpr h
        intro e
        have := congrArg List.length e
        simp only [List.length_take, List.length_nil] at this
        omega
      · exact ih _ hlt _ _ hp rfl

theorem chunksOf4000_ne_nil (l : List Char) (h : l ≠ []) :
    chunksOf4000 l ≠ [] := by
  rw [chunksOf4000_cons l h]
  exact List.cons_ne_nil _ _

theorem chunksOf4000_two_pieces (l : List Char) (h : 4000 < l.length) :
    1 < (chunksOf4000 l).length := by
  have h0 : l ≠ [] := by
    intro e
    subst e
    simp at h
  have hd : l.drop 4000 ≠ [] := by
    intro e
    have := congrArg List.length e
    simp only [List.length_drop, List.length_nil] at this
    omega
  rw [chunksOf4000_cons l h0, List.length_cons]
  have := List.length_pos.mpr (chunksOf4000_ne_nil _ hd)
  omega

theorem chunksOf4000_dropLast (l p : List Char)
    (hp : p ∈ (chunksOf4000 l).dropLast) : p.length = 4000 := by
  generalize hn : l.length = n
  induction n using Nat.strong_induction_on generalizing l p with
  | _ n ih =>
    by_cases h : l = []
    · subst h
      rw [chunksOf4000_nil] at hp
      exact absurd hp (List.not_mem_nil p)
    · have hlt : (l.drop 4000).length < n := by
        have := List.length_pos.mpr h
        subst hn
        simp only [List.length_drop]
        omega
      rw [chunksOf4000_cons l h] at hp
      by_cases hd : l.drop 4000 = []
      · rw [hd, chunksOf4000_nil] at hp
        simp at hp
      · have hne := chunksOf4000_ne_nil _ hd
        rw [List.dropLast_cons_of_ne_nil hne] at hp
        rcases List.mem_cons.mp hp with rfl | hp
        · have hlen : 4000 < l.length := by
            by_contra hle
            exact hd (List.drop_eq_nil_of_le (by omega))
          simp only [List.length_take]
          omega
        · exact ih _ hlt _ _ hp rfl

theorem fallbackSend_short (s : String) (h : s.length ≤ 4000) :
    fallbackSend s = [Action.replyText s] := by
  unfold fallbackSend
  rw [if_neg]
  omega

theorem fallbackSend_long (s : String) (h : 4000 < s.length) :
    1 < (fallbackChunks s).length ∧
    fallbackSend s =
      (fallbackChunks s).enum.map
        (fun p => Action.replyText (partHeader p.1 (fallbackChunks s).length ++ p.2)) := by
  have hdata : 4000 < s.data.length := h
  have h2 : 1 < (fallbackChunks s).length := by
    unfold fallbackChunks
    rw [List.length_map]
    exact chunksOf4000_two_pieces _ hdata
  refine ⟨h2, ?_⟩
  unfold fallbackSend
  rw [if_pos (by omega)]
  simp only [gt_iff_lt, h2, if_true]

/-! ### Claims -/

/-- C1: For every sender identifier not in the configured allow-list,
none of the three handlers (`/start`, `/help`, plain-text message) sends
any reply: each returns without producing a response. -/
theorem c1_unauthorized_senders_get_no_reply (wl : List Int) (uid : Int)
    (h : uid ∉ wl) (prim : Except String (List Chunk))
    (fb : Except String String) (md : String → Except String String) :
    handleMarkdown wl uid prim fb = [] ∧
    startCommand wl uid md = .ok [] ∧
    helpCommand wl uid = [] := by
  refine ⟨?_, ?_, ?_⟩ <;> simp [handleMarkdown, startCommand, helpCommand, h]

/-- C1 witness: sender 2 against allow-list [1] triggers no sends on any
of the three handlers. -/
theorem c1_unauthorized_senders_get_no_reply_witness :
    (2 : Int) ∉ [(1 : Int)] ∧
    (handleMarkdown [1] 2 (.ok []) (.ok "") = [] ∧
      startCommand [1] 2 (fun s => .ok s) = .ok [] ∧
      helpCommand [1] 2 = []) :=
  ⟨by decide,
    c1_unauthorized_senders_get_no_reply [1] 2 (by decide) (.ok []) (.ok "")
      (fun s => .ok s)⟩

/-- C2 (amended): for an allow-listed sender whose primary conversion
succeeds with every produced chunk having non-whitespace text, a single
chunk yields exactly one text reply carrying no part header, and N > 1
chunks yield exactly N text replies, the i-th prefixed with the
`Part i/N` header. -/
theorem c2_chunk_reply_shape (wl : List Int) (uid : Int) (chunks : List Chunk)
    (fb : Except String String) (h : uid ∈ wl)
    (hnb : ∀ c ∈ chunks, pyStrip c.text ≠ "") :
    (∀ c, chunks = [c] →
      textReplies (handleMarkdown wl uid (.ok chunks) fb) = [c.text]) ∧
    (1 < chunks.length →
      textReplies (handleMarkdown wl uid (.ok chunks) fb) =
        chunks.enum.map (fun p => partHeader p.1 chunks.length ++ p.2.text)) := by
  constructor
  · rintro c rfl
    simp only [handleMarkdown, if_pos h, primarySend, List.length_cons,
      List.length_nil]
    rw [sendChunks, sendChunks, List.append_nil, textReplies_sendChunk,
      if_pos (hnb c (by simp))]
    norm_num
  · intro hn
    simp only [handleMarkdown, if_pos h, primarySend]
    rw [textReplies_sendChunks _ _ _ hnb]
    simp only [List.enum, gt_iff_lt, hn, if_true]

/-- C2 counterexample: allow-listed sender 42, primary conversion yields
a single chunk with whitespace-only text; the claim demands exactly one
reply, but the handler sends nothing at all. -/
theorem c2_single_blank_chunk_sends_nothing :
    handleMarkdown [42] 42 (.ok [Chunk.mk "  " []]) (.ok "x") = [] ∧
    (textReplies (handleMarkdown [42] 42 (.ok [Chunk.mk "  " []])
      (.ok "x"))).length ≠ 1 := by
  decide

/-- C2 witness: two non-blank chunks produce two headed text replies;
one non-blank chunk produces exactly its text. -/
theorem c2_chunk_reply_shape_witness :
    (5 : Int) ∈ [(5 : Int)] ∧
    (∀ c, [Chunk.mk "x" [], Chunk.mk "y" []] = [c] →
      textReplies (handleMarkdown [5] 5
        (.ok [Chunk.mk "x" [], Chunk.mk "y" []]) (.ok "")) = [c.text]) ∧
    (1 < ([Chunk.mk "x" [], Chunk.mk "y" []] : List Chunk).length →
      textReplies (handleMarkdown [5] 5
        (.ok [Chunk.mk "x" [], Chunk.mk "y" []]) (.ok "")) =
        ([Chunk.mk "x" [], Chunk.mk "y" []] : List Chunk).enum.map
          (fun p => partHeader p.1
            ([Chunk.mk "x" [], Chunk.mk "y" []] : List Chunk).length ++ p.2.text)) :=
  ⟨by decide,
    (c2_chunk_reply_shape [5] 5 [Chunk.mk "x" [], Chunk.mk "y" []] (.ok "")
      (by decide) (by decide)).1,
    (c2_chunk_reply_shape [5] 5 [Chunk.mk "x" [], Chunk.mk "y" []] (.ok "")
      (by decide) (by decide)).2⟩

/-- C3: for an allow-listed sender, when the primary conversion raises,
the fallback conversion's output is what is sent: at most 4000
characters goes out as one reply; above 4000 characters it is split into
fixed-size slices (each at most — and all but the last exactly — 4000
characters, reassembling to the whole output) sent sequentially with
`Part i/N` numbering. -/
theorem c3_fallback_path (wl : List Int) (uid : Int) (e out : String)
    (h : uid ∈ wl) :
    (out.length ≤ 4000 →
      handleMarkdown wl uid (.error e) (.ok out) = [Action.replyText out]) ∧
    (4000 < out.length →
      1 < (fallbackChunks out).length ∧
      ((fallbackChunks out).map String.data).flatten = out.data ∧
      (∀ p ∈ fallbackChunks out, p.length ≤ 4000 ∧ p ≠ "") ∧
      (∀ p ∈ (fallbackChunks out).dropLast, p.length = 4000) ∧
      handleMarkdown wl uid (.error e) (.ok out) =
        (fallbackChunks out).enum.map
          (fun p =>
            Action.replyText (partHeader p.1 (fallbackChunks out).length ++ p.2))) := by
  constructor
  · intro hle
    simp only [handleMarkdown, if_pos h]
    exact fallbackSend_short out hle
  · intro hgt
    obtain ⟨h2, heq⟩ := fallbackSend_long out hgt
    refine ⟨h2, ?_, ?_, ?_, ?_⟩
    · rw [fallbackChunks, List.map_map]
      have : String.data ∘ String.mk = id := rfl
      rw [this, List.map_id]
      exact chunksOf4000_flatten out.data
    · intro p hp
      obtain ⟨q, hq, rfl⟩ := List.mem_map.mp hp
      have hm := chunksOf4000_mem out.data q hq
      refine ⟨hm.1, ?_⟩
      intro hemp
      exact hm.2 (congrArg String.data hemp)
    · intro p hp
      rw [fallbackChunks, ← List.map_dropLast] at hp
      obtain ⟨q, hq, rfl⟩ := List.mem_map.mp hp
      exact chunksOf4000_dropLast out.data q hq
    · simp only [handleMarkdown, if_pos h]
      exact heq

/-- C3 witness: a short fallback output is sent as exactly one reply. -/
theorem c3_fallback_path_witness :
    (1 : Int) ∈ [(1 : Int)] ∧
    handleMarkdown [1] 1 (.error "boom") (.ok "hi") = [Action.replyText "hi"] :=
  ⟨by decide, (c3_fallback_path [1] 1 "boom" "hi" (by decide)).1 (by decide)⟩

/-- C4: for an allow-listed sender, when both conversions raise, exactly
one reply is sent: the fixed apology literal with the dot-escaped text
of the original (primary) exception spliced in. -/
theorem c4_double_failure_single_error_reply (wl : List Int) (uid : Int)
    (e efb : String) (h : uid ∈ wl) :
    handleMarkdown wl uid (.error e) (.error efb) =
      [Action.replyText
        ("❌ Sorry, I couldn\x27t format your message\\. Error: `"
          ++ escapeDots e ++ "`")] ∧
    (handleMarkdown wl uid (.error e) (.error efb)).length = 1 := by
  simp [handleMarkdown, h, errorReply]

/-- C4 witness: primary exception text `e.` yields the single escaped
error reply. -/
theorem c4_double_failure_single_error_reply_witness :
    (1 : Int) ∈ [(1 : Int)] ∧
    (handleMarkdown [1] 1 (.error "e.") (.error "x") =
      [Action.replyText
        ("❌ Sorry, I couldn\x27t format your message\\. Error: `"
          ++ escapeDots "e." ++ "`")] ∧
     (handleMarkdown [1] 1 (.error "e.") (.error "x")).length = 1) :=
  ⟨by decide, c4_double_failure_single_error_reply [1] 1 "e." "x" (by decide)⟩

/-- C5: `handle_markdown` and `help_command` let no exception escape for
any library outcome, and any exception a handler does let escape (such
as `start_command`'s conversion call) is caught by the framework
dispatch and turned into an `error_handler` log line; dispatch is total,
so no handler invocation crashes the process. -/
theorem c5_handler_exceptions_caught_and_logged (s : BotState) (uid : Int)
    (prim : Except String (List Chunk)) (fb : Except String String)
    (upd e : String) (acts : List Action) :
    (∃ as, (stepBot s (.textMsg uid prim fb)).2 = .ok as) ∧
    (∃ as, (stepBot s (.helpCmd uid)).2 = .ok as) ∧
    dispatch upd (.error e) = ([], [errorHandlerLog upd e]) ∧
    dispatch upd (.ok acts) = (acts, []) :=
  ⟨⟨_, rfl⟩, ⟨_, rfl⟩, rfl, rfl⟩

/-- C6: with BOT_TOKEN missing/empty, or WHITELIST missing/empty (so the
module-level load yields the empty list), `main` ends in one of the two
remediation-message outcomes — never in bot construction and polling. -/
theorem c6_missing_config_remediation (tokEnv wlEnv : Option String)
    (wl : List Int)
    (h : pyStrTruthy tokEnv = false ∨ pyStrTruthy wlEnv = false)
    (hwl : loadWhitelist wlEnv = .ok wl) :
    main tokEnv wl = .configError botTokenMsgs ∨
    main tokEnv wl = .configError whitelistMsgs := by
  rcases h with h | h
  · left
    simp [main, h]
  · have hwl0 : wl = [] := by
      simp [loadWhitelist, h] at hwl
      exact hwl
    subst hwl0
    by_cases ht : pyStrTruthy tokEnv = false
    · left
      simp [main, ht]
    · right
      simp [main, ht]

/-- C6 witness: both environment variables absent gives the BOT_TOKEN
remediation outcome. -/
theorem c6_missing_config_remediation_witness :
    (pyStrTruthy none = false ∨ pyStrTruthy none = false) ∧
    loadWhitelist none = .ok [] ∧
    (main none [] = .configError botTokenMsgs ∨
      main none [] = .configError whitelistMsgs) :=
  ⟨Or.inl rfl, rfl, c6_missing_config_remediation none none [] (Or.inl rfl) rfl⟩

/-- C7: for an allow-listed sender, `/start` produces exactly one reply,
namely the stripped `welcome_message` literal rendered through the
markdownify conversion. -/
theorem c7_start_single_welcome_reply (wl : List Int) (uid : Int)
    (md : String → Except String String) (f : String) (h : uid ∈ wl)
    (hmd : md (pyStrip welcomeRaw) = .ok f) :
    startCommand wl uid md = .ok [Action.replyText f] := by
  simp [startCommand, h, hmd]

/-- C7 witness: with the identity conversion oracle, sender 42 gets
exactly the stripped welcome text. -/
theorem c7_start_single_welcome_reply_witness :
    (42 : Int) ∈ [(42 : Int)] ∧
    (fun s => (Except.ok s : Except String String)) (pyStrip welcomeRaw) =
      .ok (pyStrip welcomeRaw) ∧
    startCommand [42] 42 (fun s => .ok s) =
      .ok [Action.replyText (pyStrip welcomeRaw)] :=
  ⟨by decide, rfl,
    c7_start_single_welcome_reply [42] 42 (fun s => .ok s) (pyStrip welcomeRaw)
      (by decide) rfl⟩

/-- C8: no handler invocation changes the bot's state, so after any
sequence of updates the whitelist is still the one loaded at
construction. -/
theorem c8_whitelist_never_mutated :
    (∀ (s : BotState) (ev : Event), (stepBot s ev).1 = s) ∧
    (∀ (s : BotState) (evs : List Event),
      (runBotEvents s evs).whitelist = s.whitelist) := by
  have hstep : ∀ (s : BotState) (ev : Event), (stepBot s ev).1 = s := by
    intro s ev
    cases ev <;> rfl
  refine ⟨hstep, ?_⟩
  intro s evs
  induction evs generalizing s with
  | nil => rfl
  | cons ev evs ih =>
    simp only [runBotEvents, List.foldl_cons] at ih ⊢
    rw [hstep]
    exact ih s

/-- C9: a whitespace-only chunk is not sent as a text message yet its
index and the total still count it, and its files are still forwarded:
the number of text replies equals the number of non-blank chunks, file
sends are exactly all chunks' files in order, and on the concrete
3-chunk input with a blank middle chunk carrying a document only parts
1/3 and 3/3 go out as text while the document is still sent. -/
theorem c9_blank_chunks_skipped_but_counted (wl : List Int) (uid : Int)
    (chunks : List Chunk) (fb : Except String String) (h : uid ∈ wl) :
    (textReplies (handleMarkdown wl uid (.ok chunks) fb)).length =
      (chunks.filter (fun c => pyStrip c.text != "")).length ∧
    fileSends (handleMarkdown wl uid (.ok chunks) fb) =
      (chunks.map (fun c => c.files.map fileAction)).flatten ∧
    handleMarkdown [7] 7 (.ok demoChunks) (.ok "") =
      [Action.replyText ("📄 *Part 1/3*\n\na"), Action.replyDocument "f" "cap",
        Action.replyText ("📄 *Part 3/3*\n\nb")] := by
  refine ⟨?_, ?_, by decide⟩
  · simp only [handleMarkdown, if_pos h, primarySend]
    exact textReplies_sendChunks_length _ _ _
  · simp only [handleMarkdown, if_pos h, primarySend]
    exact fileSends_sendChunks _ _ _

/-- C9 witness: instantiated at the concrete demo input. -/
theorem c9_blank_chunks_skipped_but_counted_witness :
    (7 : Int) ∈ [(7 : Int)] ∧
    ((textReplies (handleMarkdown [7] 7 (.ok demoChunks) (.ok ""))).length =
      (demoChunks.filter (fun c => pyStrip c.text != "")).length ∧
    fileSends (handleMarkdown [7] 7 (.ok demoChunks) (.ok "")) =
      (demoChunks.map (fun c => c.files.map fileAction)).flatten ∧
    handleMarkdown [7] 7 (.ok demoChunks) (.ok "") =
      [Action.replyText ("📄 *Part 1/3*\n\na"), Action.replyDocument "f" "cap",
        Action.replyText ("📄 *Part 3/3*\n\nb")]) :=
  ⟨by decide,
    c9_blank_chunks_skipped_but_counted [7] 7 demoChunks (.ok "") (by decide)⟩

/-- C10: a non-integer WHITELIST token (`abc`, or the empty token a
trailing comma produces) makes the module-level int() conversion raise;
the exception is uncaught, so the process dies before `main` (and its
remediation messages) can run, whatever BOT_TOKEN holds. -/
theorem c10_invalid_whitelist_token_kills_module_load
    (tokEnv : Option String) :
    runProcess tokEnv (some "abc") =
      .error "invalid literal for int() with base 10: \x27abc\x27" ∧
    runProcess tokEnv (some "123,") =
      .error "invalid literal for int() with base 10: \x27\x27" ∧
    ∀ r, runProcess tokEnv (some "abc") ≠ .ok r := by
  refine ⟨rfl, rfl, ?_⟩
  intro r hr
  rw [show runProcess tokEnv (some "abc") =
    .error "invalid literal for int() with base 10: \x27abc\x27" from rfl] at hr
  exact Except.noConfusion hr

end MarkdownBotSpec
